import Mathlib

/-!
Verification of the response-normalization layer of the gosubsonic client
(src/client.go, src/response.go).

The embedding mirrors what `encoding/json.Unmarshal` hands to the Go code:
a value stored in an `interface{}` field is always one of `nil`, `bool`,
`float64`, `string`, `[]interface{}` or `map[string]interface{}`, which is
exactly the `Json` inductive below.  JSON numbers (Go `float64`) are modelled
as rationals; the Go conversion `int64(f)` truncates toward zero, which is
`ratTrunc`.  A failed unchecked type assertion (`v.(T)` without the comma-ok
form) aborts the call in Go with a run-time panic; it is modelled as an
`Except.error goPanic` result.
-/

namespace Gosubsonic

/-- A JSON value as decoded by `encoding/json` into `interface{}`. -/
inductive Json where
  | null
  | bool (b : Bool)
  | num (q : Rat)
  | str (s : String)
  | arr (elems : List Json)
  | obj (fields : List (String × Json))

/-- Go map lookup `m["k"]` on a decoded JSON object: a missing key yields the
nil interface value, which behaves exactly like JSON `null` in every type
switch and type assertion of the source, so both are mapped to `Json.null`.
(Duplicate keys do not occur in the payloads considered here.) -/
def jGet (m : List (String × Json)) (k : String) : Json :=
  (m.lookup k).getD Json.null

/-- Field access `j["k"]` when `j` itself may not be an object. -/
def jGetObj (j : Json) (k : String) : Json :=
  match j with
  | .obj m => jGet m k
  | _ => Json.null

/-- The (abstracted) message of a Go run-time panic caused by a failed
unchecked interface type assertion. -/
def goPanic : String := "panic: interface conversion"

/-- Unchecked Go assertion `v.(string)`: panics unless the value is a string. -/
def asStr : Json → Except String String
  | .str s => .ok s
  | _ => .error goPanic

/-- Unchecked Go assertion `v.(float64)`: panics unless the value is a number. -/
def asNum : Json → Except String Rat
  | .num q => .ok q
  | _ => .error goPanic

/-- Unchecked Go assertion `v.(bool)`: panics unless the value is a boolean. -/
def asBool : Json → Except String Bool
  | .bool b => .ok b
  | _ => .error goPanic

/-- The Go conversion `int64(f)` on a JSON number: truncation toward zero
(`Int.div` with a positive denominator truncates toward zero). -/
def ratTrunc (q : Rat) : Int :=
  Int.tdiv q.num (q.den : Int)

/-- `true` on an `Except.ok` result, `false` on an `Except.error`. -/
def isOkB : Except String α → Bool
  | .ok _ => true
  | .error _ => false

/-- `true` on an `Except.error` result. -/
def isErrB : Except String α → Bool
  | .ok _ => false
  | .error _ => true

/-! ## Timestamps

`time.Parse("2006-01-02T15:04:05", s)` with this fixed layout succeeds
exactly on strings of the shape `YYYY-MM-DDTHH:MM:SS` (nineteen characters,
all components fully zero-padded) whose components are in range; any
trailing text — in particular a trailing `Z` — is an "extra text" error.
The parsed result is an absolute point in (UTC) time, modelled by its
six components. -/

structure GoTime where
  year : Nat := 1
  month : Nat := 1
  day : Nat := 1
  hour : Nat := 0
  minute : Nat := 0
  second : Nat := 0
deriving DecidableEq, Repr

/-- Two-digit decimal value. -/
def dig2 (a b : Char) : Nat :=
  (a.toNat - 48) * 10 + (b.toNat - 48)

/-- Four-digit decimal value. -/
def dig4 (a b c d : Char) : Nat :=
  ((a.toNat - 48) * 10 + (b.toNat - 48)) * 100 + dig2 c d

/-- Day count of a month, with the Gregorian leap rule used by `time`. -/
def daysInMonth (year month : Nat) : Nat :=
  if month = 2 then
    if year % 4 = 0 ∧ (year % 100 ≠ 0 ∨ year % 400 = 0) then 29 else 28
  else if month = 4 ∨ month = 6 ∨ month = 9 ∨ month = 11 then 30
  else 31

/-- `time.Parse("2006-01-02T15:04:05", s)`: `none` models the parse error
(wrong shape, non-digit, out-of-range component, or trailing text). -/
def timeParseCreated (s : String) : Option GoTime :=
  match s.toList with
  | [y1, y2, y3, y4, '-', m1, m2, '-', d1, d2, 'T',
     h1, h2, ':', n1, n2, ':', e1, e2] =>
    if (y1.isDigit && y2.isDigit && y3.isDigit && y4.isDigit &&
        m1.isDigit && m2.isDigit && d1.isDigit && d2.isDigit &&
        h1.isDigit && h2.isDigit && n1.isDigit && n2.isDigit &&
        e1.isDigit && e2.isDigit) then
      let year := dig4 y1 y2 y3 y4
      let month := dig2 m1 m2
      let day := dig2 d1 d2
      let hour := dig2 h1 h2
      let minute := dig2 n1 n2
      let second := dig2 e1 e2
      if 1 ≤ month ∧ month ≤ 12 ∧ 1 ≤ day ∧ day ≤ daysInMonth year month ∧
         hour ≤ 23 ∧ minute ≤ 59 ∧ second ≤ 59 then
        some ⟨year, month, day, hour, minute, second⟩
      else none
    else none
  | _ => none

/-- The error string returned for a failed `time.Parse` (the exact Go text is
longer; only its presence matters to the source, never its content). -/
def timeParseErrMsg (s : String) : String :=
  "parsing time " ++ s ++ " as 2006-01-02T15:04:05: cannot parse"

/-! ## Data model (src/response.go) -/

/-- APIError (response.go lines 13-16). -/
structure APIError where
  Code : Int := 0
  Message : String := ""
deriving DecidableEq, Repr

/-- License (response.go lines 45-54).  The Go zero `time.Time` is
January 1 of year 1, 00:00:00. -/
structure License where
  DateRaw : String := ""
  Email : String := ""
  Key : String := ""
  Valid : Bool := false
  Date : GoTime := {}
deriving DecidableEq, Repr

/-- apiMusicFolderContainer (response.go lines 57-59). -/
structure apiMusicFolderContainer where
  MusicFolder : Json := Json.null

/-- MusicFolder (response.go lines 62-65). -/
structure MusicFolder where
  ID : Int := 0
  Name : String := ""
deriving DecidableEq, Repr

/-- Index (response.go lines 73-80). -/
structure Index where
  Name : String := ""
  ArtistRaw : Json := Json.null
  Artist : List MusicFolder := []

/-- IndexArtist (response.go lines 83-86): same fields as MusicFolder. -/
abbrev IndexArtist := MusicFolder

/-- apiIndexesContainer (response.go lines 68-70). -/
structure apiIndexesContainer where
  Index : List Index := []

/-- Directory (response.go lines 132-144). -/
structure Directory where
  ID : Int := 0
  Album : String := ""
  Artist : String := ""
  CoverArt : Int := 0
  CreatedRaw : String := ""
  Parent : Int := 0
  Title : String := ""
  Created : GoTime := {}
deriving DecidableEq, Repr

/-- Media (response.go lines 100-129).  `Duration` is the Go
`time.Duration` in nanoseconds. -/
structure Media where
  ID : Int := 0
  Album : String := ""
  AlbumID : Int := 0
  Artist : String := ""
  ArtistID : Int := 0
  BitRate : Int := 0
  ContentType : String := ""
  CoverArt : Int := 0
  CreatedRaw : String := ""
  DiscNumber : Int := 0
  DurationRaw : Int := 0
  Genre : String := ""
  IsVideo : Bool := false
  Parent : Int := 0
  Path : String := ""
  Size : Int := 0
  Suffix : String := ""
  Title : String := ""
  Track : Int := 0
  TranscodedContentType : String := ""
  TranscodedSuffix : String := ""
  «Type» : String := ""
  Year : Int := 0
  Created : GoTime := {}
  Duration : Int := 0
deriving DecidableEq, Repr

/-- Content (response.go lines 94-97). -/
structure Content where
  Directories : List Directory := []
  Media : List Media := []
deriving DecidableEq, Repr

/-- NowPlaying (response.go lines 152-182). -/
structure NowPlaying where
  ID : Int := 0
  Album : String := ""
  AlbumID : Int := 0
  Artist : String := ""
  ArtistID : Int := 0
  BitRate : Int := 0
  ContentType : String := ""
  CoverArt : Int := 0
  CreatedRaw : String := ""
  DiscNumber : Int := 0
  DurationRaw : Int := 0
  Genre : String := ""
  IsDir : Bool := false
  IsVideo : Bool := false
  MinutesAgo : Int := 0
  Parent : Int := 0
  Path : String := ""
  PlayerID : Int := 0
  Size : Int := 0
  Suffix : String := ""
  Title : String := ""
  Track : Int := 0
  Username : String := ""
  Year : Int := 0
  Created : GoTime := {}
  Duration : Int := 0
deriving DecidableEq, Repr

/-- APIStatus (response.go lines 19-42).  `Directory` and `NowPlaying` are
`interface{}` fields in Go: after `json.Unmarshal` they hold the raw decoded
JSON value, so they are `Json` here. -/
structure APIStatus where
  Status : String := ""
  Version : String := ""
  Xmlns : String := ""
  Error : APIError := {}
  License : License := {}
  MusicFolders : apiMusicFolderContainer := {}
  Indexes : apiIndexesContainer := {}
  Directory : Json := Json.null
  NowPlaying : Json := Json.null

/-- apiContainer (response.go lines 8-10). -/
structure apiContainer where
  Response : APIStatus := {}

/-! ## Envelope decoding

`json.Unmarshal(body, &subRes)` fills the typed `apiContainer` from the
decoded JSON document.  Field names are matched case-insensitively by Go; the
payload uses the lower-camel-case keys written below.  An absent key leaves
the Go zero value in place.  (A type-mismatched key would abort `Unmarshal`
with an error in Go; the defaulting readers below are only ever applied to
well-typed envelopes in this development.) -/

/-- A string field of a struct: absent key keeps the zero value `""`. -/
def strD : Json → String
  | .str s => s
  | _ => ""

/-- A bool field of a struct: absent key keeps the zero value `false`. -/
def boolD : Json → Bool
  | .bool b => b
  | _ => false

/-- An int field of a struct: absent key keeps the zero value `0`. -/
def intD : Json → Int
  | .num q => ratTrunc q
  | _ => 0

/-- Decoding of the `error` sub-object into `APIError`. -/
def decodeAPIError (j : Json) : APIError :=
  { Code := intD (jGetObj j "code"), Message := strD (jGetObj j "message") }

/-- Decoding of the `license` sub-object into `License` (the parsed `Date`
field is not part of the wire format and stays zero). -/
def decodeLicense (j : Json) : License :=
  { DateRaw := strD (jGetObj j "date"), Email := strD (jGetObj j "email"),
    Key := strD (jGetObj j "key"), Valid := boolD (jGetObj j "valid") }

/-- Decoding of one element of `indexes.index` into `Index`: the `artist`
value lands in the `interface{}` field `ArtistRaw` untouched. -/
def decodeIndex (j : Json) : Index :=
  { Name := strD (jGetObj j "name"), ArtistRaw := jGetObj j "artist" }

/-- Decoding of `indexes` into `apiIndexesContainer`: `index` must be an
array of objects (anything else aborts `Unmarshal` in Go; an absent key
leaves the nil slice). -/
def decodeIndexes (j : Json) : apiIndexesContainer :=
  match jGetObj j "index" with
  | .arr xs => ⟨xs.map decodeIndex⟩
  | _ => ⟨[]⟩

/-- Decoding of `musicFolders`: the `musicFolder` value lands in the
`interface{}` field untouched. -/
def decodeMusicFolders (j : Json) : apiMusicFolderContainer :=
  ⟨jGetObj j "musicFolder"⟩

/-- Decoding of the `subsonic-response` object into `APIStatus`.  The
`directory` and `nowPlaying` values land in `interface{}` fields, so they
keep their raw decoded form (`Json`): in particular their dynamic Go type is
one of the generic JSON types, never one of the `api...Container` structs. -/
def decodeAPIStatus (j : Json) : APIStatus :=
  { Status := strD (jGetObj j "status"),
    Version := strD (jGetObj j "version"),
    Xmlns := strD (jGetObj j "xmlns"),
    Error := decodeAPIError (jGetObj j "error"),
    License := decodeLicense (jGetObj j "license"),
    MusicFolders := decodeMusicFolders (jGetObj j "musicFolders"),
    Indexes := decodeIndexes (jGetObj j "indexes"),
    Directory := jGetObj j "directory",
    NowPlaying := jGetObj j "nowPlaying" }

/-- Decoding of the whole response document into `apiContainer`. -/
def decodeApiContainer (j : Json) : apiContainer :=
  ⟨decodeAPIStatus (jGetObj j "subsonic-response")⟩

/-- Whether the decoded response document carries an `error` object. -/
def envelopeErrorPresent (j : Json) : Bool :=
  match jGetObj (jGetObj j "subsonic-response") "error" with
  | .obj _ => true
  | _ => false

/-! ## fetchJSON (client.go lines 564-590)

The HTTP GET and body read are the out-of-scope Transport; what remains is
the decode of the body and the error-envelope check of lines 582-586:
`if subRes.Response.Error != (APIError{})` fails the call with
`fmt.Errorf("gosubsonic: %d: %s", Code, Message)`, otherwise the container
is returned. -/

/-- The error produced for a non-zero error envelope. -/
def remoteErrMsg (e : APIError) : String :=
  "gosubsonic: " ++ toString e.Code ++ ": " ++ e.Message

/-- The error-envelope check of fetchJSON (client.go lines 582-589). -/
def fetchJSONCheck (c : apiContainer) : Except String apiContainer :=
  if c.Response.Error ≠ ({} : APIError) then
    .error (remoteErrMsg c.Response.Error)
  else
    .ok c

/-- fetchJSON on an already-JSON-parsed body: decode the envelope, then apply
the error check.  This uses the defaulting decoder above and is applied only
to well-typed concrete fixtures; the faithful model of `json.Unmarshal`
including its type-mismatch error path is `unmarshalApiContainer` below. -/
def fetchJSONPure (j : Json) : Except String apiContainer :=
  fetchJSONCheck (decodeApiContainer j)

/-! ## Faithful unmarshal

`json.Unmarshal` fails with an `UnmarshalTypeError` when a JSON value's type
does not match the typed struct field it is decoded into (it records the
first such error and returns it, and fetchJSON / fetchBinary then fail with
the parse-error path, discarding the partially filled container).  A JSON
`null` and an absent key both leave the Go zero value in place without an
error.  The functions below model this: `Except.error unmarshalErrMsg` is
the Unmarshal failure.  One abstraction: a non-integral JSON number into an
int field is rejected by checking the denominator, where Go inspects the
literal text; both reject every fractional value. -/

/-- The parse-error message of client.go lines 552 and 579 (the Go text also
carries the Unmarshal error detail and the URL). -/
def unmarshalErrMsg : String := "gosubsonic: failed to parse response JSON"

/-- Unmarshal into a string field. -/
def unmarshalStr : Json → Except String String
  | .str s => .ok s
  | .null => .ok ""
  | _ => .error unmarshalErrMsg

/-- Unmarshal into a bool field. -/
def unmarshalBool : Json → Except String Bool
  | .bool b => .ok b
  | .null => .ok false
  | _ => .error unmarshalErrMsg

/-- Unmarshal into an int field: only integral numbers are accepted. -/
def unmarshalInt : Json → Except String Int
  | .num q => if q.den = 1 then .ok q.num else .error unmarshalErrMsg
  | .null => .ok 0
  | _ => .error unmarshalErrMsg

/-- Unmarshal the `error` value into `APIError`. -/
def unmarshalAPIError : Json → Except String APIError
  | .obj m => do
    let code ← unmarshalInt (jGet m "code")
    let message ← unmarshalStr (jGet m "message")
    pure { Code := code, Message := message }
  | .null => .ok {}
  | _ => .error unmarshalErrMsg

/-- Unmarshal the `license` value into `License`. -/
def unmarshalLicense : Json → Except String License
  | .obj m => do
    let dateRaw ← unmarshalStr (jGet m "date")
    let email ← unmarshalStr (jGet m "email")
    let key ← unmarshalStr (jGet m "key")
    let valid ← unmarshalBool (jGet m "valid")
    pure { DateRaw := dateRaw, Email := email, Key := key, Valid := valid }
  | .null => .ok {}
  | _ => .error unmarshalErrMsg

/-- Unmarshal the `musicFolders` value: its `musicFolder` value lands in an
`interface{}` field, so any JSON value is accepted there. -/
def unmarshalMusicFolders : Json → Except String apiMusicFolderContainer
  | .obj m => .ok ⟨jGet m "musicFolder"⟩
  | .null => .ok {}
  | _ => .error unmarshalErrMsg

/-- Unmarshal one element of `indexes.index` into `Index`: the `artist` key
is claimed by the tag on the `interface{}` field `ArtistRaw`, so any JSON
value is accepted there and the `Artist` slice stays nil. -/
def unmarshalIndex : Json → Except String Index
  | .obj m => do
    let name ← unmarshalStr (jGet m "name")
    pure { Name := name, ArtistRaw := jGet m "artist" }
  | .null => .ok {}
  | _ => .error unmarshalErrMsg

/-- Unmarshal a JSON array element-wise into a list of `Index`. -/
def unmarshalIndexList : List Json → Except String (List Index)
  | [] => .ok []
  | x :: rest => do
    let i ← unmarshalIndex x
    let is ← unmarshalIndexList rest
    pure (i :: is)

/-- Unmarshal the `indexes` value into `apiIndexesContainer`: `index` must
be an array (or null / absent, leaving the nil slice). -/
def unmarshalIndexes : Json → Except String apiIndexesContainer
  | .obj m =>
    match jGet m "index" with
    | .arr xs => (unmarshalIndexList xs).map fun l => ⟨l⟩
    | .null => .ok {}
    | _ => .error unmarshalErrMsg
  | .null => .ok {}
  | _ => .error unmarshalErrMsg

/-- Unmarshal the `subsonic-response` value into `APIStatus`.  `directory`
and `nowPlaying` are `interface{}` fields: any JSON value is accepted and
kept raw. -/
def unmarshalAPIStatus : Json → Except String APIStatus
  | .obj m => do
    let status ← unmarshalStr (jGet m "status")
    let version ← unmarshalStr (jGet m "version")
    let xmlns ← unmarshalStr (jGet m "xmlns")
    let err ← unmarshalAPIError (jGet m "error")
    let license ← unmarshalLicense (jGet m "license")
    let musicFolders ← unmarshalMusicFolders (jGet m "musicFolders")
    let indexes ← unmarshalIndexes (jGet m "indexes")
    pure { Status := status, Version := version, Xmlns := xmlns,
           Error := err, License := license, MusicFolders := musicFolders,
           Indexes := indexes, Directory := jGet m "directory",
           NowPlaying := jGet m "nowPlaying" }
  | .null => .ok {}
  | _ => .error unmarshalErrMsg

/-- `json.Unmarshal(body, &subRes)` for `apiContainer`: the top level must
be an object (or null, a no-op); unknown keys are ignored. -/
def unmarshalApiContainer : Json → Except String apiContainer
  | .obj m => (unmarshalAPIStatus (jGet m "subsonic-response")).map fun st => ⟨st⟩
  | .null => .ok {}
  | _ => .error unmarshalErrMsg

/-- fetchJSON after the transport (client.go lines 576-589), with the
faithful unmarshal: a body that does not unmarshal fails with the parse
error of line 579; otherwise the error-envelope check of lines 582-586
runs. -/
def fetchJSONUnmarshal (j : Json) : Except String apiContainer := do
  let c ← unmarshalApiContainer j
  fetchJSONCheck c

/-- Whether `pat` occurs at the head of `l`. -/
def leadsWith : List Char → List Char → Bool
  | [], _ => true
  | _ :: _, [] => false
  | p :: ps, c :: cs => (p == c) && leadsWith ps cs

/-- Whether `pat` occurs anywhere in `hay`. -/
def hasSub (pat : List Char) : List Char → Bool
  | [] => leadsWith pat []
  | c :: rest => leadsWith pat (c :: rest) || hasSub pat rest

/-- Go `strings.Contains(s, sub)`. -/
def goStringsContains (s sub : String) : Bool :=
  hasSub sub.toList s.toList

/-- fetchBinary after the transport (client.go lines 543-560): when the
response Content-Type contains `application/json` the body is decoded — a
body that does not unmarshal fails with the parse error of line 552, and
one that does always fails with the envelope's error code and message
(line 556, with no check against the zero value) — and no reader is
returned; when the Content-Type is not JSON the body reader is returned
unread (abstracted to `Unit`; the `body` argument is unused then). -/
def fetchBinaryCheck (contentType : String) (body : Json) : Except String Unit :=
  if goStringsContains contentType "application/json" then
    match unmarshalApiContainer body with
    | .error e => .error e
    | .ok c => .error (remoteErrMsg c.Response.Error)
  else
    .ok ()

/-! ## Scalar coercions (client.go lines 241-264 and 434-441) -/

/-- The album switch of GetMusicDirectory (client.go lines 241-253):
`nil` leaves the zero value `""`, a string passes through unchanged, a
number is formatted as a truncated base-10 integer, anything else fails. -/
def mdAlbumString : Json → Except String String
  | .null => .ok ""
  | .str s => .ok s
  | .num q => .ok (toString (ratTrunc q))
  | _ => .error "gosubsonic: unknown Album data type for getMusicDirectory"

/-- The title switch of GetMusicDirectory (client.go lines 255-264): only a
string or a number is accepted — there is no `nil` case. -/
def mdTitleString : Json → Except String String
  | .str s => .ok s
  | .num q => .ok (toString (ratTrunc q))
  | _ => .error "gosubsonic: unknown Title data type for getMusicDirectory"

/-- The album switch of GetNowPlaying (client.go lines 432-441): only a
string or a number is accepted. -/
def npAlbumString : Json → Except String String
  | .str s => .ok s
  | .num q => .ok (toString (ratTrunc q))
  | _ => .error "gosubsonic: unknown Album data type for getNowPlaying"

/-! ## GetMusicFolders (client.go lines 82-127) -/

/-- One iteration of the folder loop (client.go lines 112-122): both fields
are read by unchecked type assertions. -/
def musicFolderFromMap (m : List (String × Json)) : Except String MusicFolder := do
  let id ← asNum (jGet m "id")
  let name ← asStr (jGet m "name")
  pure { ID := ratTrunc id, Name := name }

/-- The folder loop (client.go lines 110-123): map items are built in order,
non-map items are skipped. -/
def musicFolderItems : List Json → Except String (List MusicFolder)
  | [] => .ok []
  | .obj m :: rest => do
    let f ← musicFolderFromMap m
    let fs ← musicFolderItems rest
    pure (f :: fs)
  | _ :: rest => musicFolderItems rest

/-- Cardinality normalization and build for the `musicFolder` field
(client.go lines 96-126): a single object becomes a one-item list, an array
is taken as is, anything else is a parse error. -/
def parseMusicFolders : Json → Except String (List MusicFolder)
  | .obj m => musicFolderItems [Json.obj m]
  | .arr xs => musicFolderItems xs
  | _ => .error "gosubsonic: failed to parse getMusicFolders response"

/-- GetMusicFolders after the fetch (client.go lines 82-127). -/
def getMusicFolders (st : APIStatus) : Except String (List MusicFolder) :=
  parseMusicFolders st.MusicFolders.MusicFolder

/-! ## GetIndexes (client.go lines 130-198) -/

/-- One iteration of the artist loop (client.go lines 177-187). -/
def indexArtistFromMap (m : List (String × Json)) : Except String IndexArtist := do
  let id ← asNum (jGet m "id")
  let name ← asStr (jGet m "name")
  pure { ID := ratTrunc id, Name := name }

/-- The artist loop (client.go lines 175-188). -/
def indexArtistItems : List Json → Except String (List IndexArtist)
  | [] => .ok []
  | .obj m :: rest => do
    let a ← indexArtistFromMap m
    let as ← indexArtistItems rest
    pure (a :: as)
  | _ :: rest => indexArtistItems rest

/-- Cardinality normalization for one index's `artist` field (client.go
lines 162-172). -/
def parseIndexArtists : Json → Except String (List IndexArtist)
  | .obj m => indexArtistItems [Json.obj m]
  | .arr xs => indexArtistItems xs
  | _ => .error "gosubsonic: failed to parse getIndexes response"

/-- The per-index loop of GetIndexes (client.go lines 154-194): each index's
raw artist value is normalized and the raw value nulled out. -/
def getIndexesProcess : List Index → Except String (List Index)
  | [] => .ok []
  | index :: rest => do
    let artists ← parseIndexArtists index.ArtistRaw
    let out ← getIndexesProcess rest
    pure ({ index with ArtistRaw := Json.null, Artist := artists } :: out)

/-- GetIndexes after the fetch (client.go lines 150-197). -/
def getIndexes (st : APIStatus) : Except String (List Index) :=
  getIndexesProcess st.Indexes.Index

/-! ## GetMusicDirectory (client.go lines 201-365)

Lines 216-218 check `res.Response.Directory.(apiMusicDirectoryContainer)`
with the comma-ok form and return an empty `&Content{}` when the assertion
fails.  `res.Response.Directory` is an `interface{}` struct field filled by
`json.Unmarshal`, so its dynamic type is always one of the generic JSON
types (`map[string]interface{}` for the directory object), never the struct
type `apiMusicDirectoryContainer`: the assertion fails for every decoded
response and the function returns empty content unconditionally.  The code
from line 221 on is therefore unreachable; it is modelled separately below
(`getMusicDirectoryFromChild`), parameterized by the `Child` value it was
written to consume. -/

/-- Outcome of one iteration of the child loop: a directory, a media item,
or a skipped item (video). -/
inductive ChildOut where
  | dir (d : Directory)
  | med (m : Media)
  | skip

/-- One iteration of the child loop (client.go lines 237-359). -/
def buildChild (m : List (String × Json)) : Except String ChildOut := do
  -- shared fields (lines 241-276)
  let album ← mdAlbumString (jGet m "album")
  let title ← mdTitleString (jGet m "title")
  let coverArt : Int :=
    match jGet m "coverArt" with
    | .num c => ratTrunc c
    | _ => 0
  let createdRaw ← asStr (jGet m "created")
  let created ←
    match timeParseCreated createdRaw with
    | some t => pure t
    | none => Except.error (timeParseErrMsg createdRaw)
  -- `if b, ok := m["isDir"].(bool); b && ok` (line 279)
  if (match jGet m "isDir" with | .bool b => b | _ => false) then
    let id ← asNum (jGet m "id")
    let artist ← asStr (jGet m "artist")
    let parent ← asNum (jGet m "parent")
    pure (ChildOut.dir
      { ID := ratTrunc id, Album := album, Artist := artist,
        CoverArt := coverArt, CreatedRaw := createdRaw,
        Parent := ratTrunc parent, Title := title, Created := created })
  else
    -- `if b, ok := m["isVideo"].(bool); b && ok { continue }` (line 297)
    if (match jGet m "isVideo" with | .bool b => b | _ => false) then
      pure ChildOut.skip
    else do
      -- required media fields, in the order of the literal (lines 302-317)
      let id ← asNum (jGet m "id")
      let contentType ← asStr (jGet m "contentType")
      let duration ← asNum (jGet m "duration")
      let isVideo ← asBool (jGet m "isVideo")
      let parent ← asNum (jGet m "parent")
      let path ← asStr (jGet m "path")
      let suffix ← asStr (jGet m "suffix")
      let typ ← asStr (jGet m "type")
      let med : Media :=
        { ID := ratTrunc id, Album := album, ContentType := contentType,
          CoverArt := coverArt, CreatedRaw := createdRaw,
          DurationRaw := ratTrunc duration, IsVideo := isVideo,
          Parent := ratTrunc parent, Path := path, Suffix := suffix,
          Title := title, «Type» := typ, Created := created }
      -- optional fields via comma-ok assertions (lines 319-348)
      let med := match jGet m "albumId" with
        | .num a => { med with AlbumID := ratTrunc a } | _ => med
      let med := match jGet m "artist" with
        | .str a => { med with Artist := a } | _ => med
      let med := match jGet m "artistId" with
        | .num a => { med with ArtistID := ratTrunc a } | _ => med
      let med := match jGet m "discNumber" with
        | .num d => { med with DiscNumber := ratTrunc d } | _ => med
      let med := match jGet m "genre" with
        | .str g => { med with Genre := g } | _ => med
      let med := match jGet m "track" with
        | .num t => { med with Track := ratTrunc t } | _ => med
      let med := match jGet m "year" with
        | .num y => { med with Year := ratTrunc y } | _ => med
      let med := match jGet m "transcodedContentType" with
        | .str t => { med with TranscodedContentType := t } | _ => med
      let med := match jGet m "transcodedSuffix" with
        | .str t => { med with TranscodedSuffix := t } | _ => med
      -- `time.ParseDuration(strconv.FormatInt(DurationRaw, 10) + "s")`
      -- (lines 351-355) succeeds for every integer second count that fits a
      -- time.Duration; the result is DurationRaw seconds in nanoseconds.
      pure (ChildOut.med { med with Duration := med.DurationRaw * 1000000000 })

/-- The child loop (client.go lines 235-361): directories and media items
are accumulated in encounter order, non-map items are skipped. -/
def childItems : List Json → Except String (List Directory × List Media)
  | [] => .ok ([], [])
  | .obj m :: rest => do
    let out ← buildChild m
    let (ds, ms) ← childItems rest
    match out with
    | .dir d => pure (d :: ds, ms)
    | .med me => pure (ds, me :: ms)
    | .skip => pure (ds, ms)
  | _ :: rest => childItems rest

/-- Cardinality normalization and build for the directory's `child` value
(client.go lines 221-364) — the code the early return of line 216 makes
unreachable, as the author wrote it. -/
def getMusicDirectoryFromChild (ch : Json) : Except String Content :=
  match ch with
  | .obj m => (childItems [Json.obj m]).map fun (ds, ms) => ⟨ds, ms⟩
  | .arr xs => (childItems xs).map fun (ds, ms) => ⟨ds, ms⟩
  | _ => .error "gosubsonic: failed to parse getMusicDirectory response"

/-- GetMusicDirectory after the fetch (client.go lines 201-365).  As
explained above, the comma-ok assertion of line 216 fails for every value
`json.Unmarshal` can place in the `interface{}` field `Directory`, so the
call always takes the early `return &Content{}, nil` of line 217. -/
def getMusicDirectory (_st : APIStatus) : Except String Content :=
  .ok {}

/-- GetMusicDirectory composed with the fetchJSON error check, starting from
the JSON-parsed response body. -/
def getMusicDirectoryFromResponse (j : Json) : Except String Content :=
  (fetchJSONPure j).bind fun res => getMusicDirectory res.Response

/-! ## GetNowPlaying (client.go lines 370-469) -/

/-- One iteration of the entry loop (client.go lines 406-464).  All fields
of the literal (lines 408-430) are read by unchecked type assertions, in
literal order; then the album switch, the optional coverArt, the created
parse and the duration conversion follow. -/
def buildNowPlayingEntry (m : List (String × Json)) : Except String NowPlaying := do
  let id ← asNum (jGet m "id")
  let albumId ← asNum (jGet m "albumId")
  let artist ← asStr (jGet m "artist")
  let artistId ← asNum (jGet m "artistId")
  let bitRate ← asNum (jGet m "bitRate")
  let contentType ← asStr (jGet m "contentType")
  let createdRaw ← asStr (jGet m "created")
  let discNumber ← asNum (jGet m "discNumber")
  let duration ← asNum (jGet m "duration")
  let genre ← asStr (jGet m "genre")
  let isDir ← asBool (jGet m "isDir")
  let isVideo ← asBool (jGet m "isVideo")
  let minutesAgo ← asNum (jGet m "minutesAgo")
  let parent ← asNum (jGet m "parent")
  let path ← asStr (jGet m "path")
  let playerId ← asNum (jGet m "playerId")
  let size ← asNum (jGet m "size")
  let suffix ← asStr (jGet m "suffix")
  let title ← asStr (jGet m "title")
  let track ← asNum (jGet m "track")
  let year ← asNum (jGet m "year")
  let album ← npAlbumString (jGet m "album")
  let coverArt : Int :=
    match jGet m "coverArt" with
    | .num c => ratTrunc c
    | _ => 0
  let created ←
    match timeParseCreated createdRaw with
    | some t => pure t
    | none => Except.error (timeParseErrMsg createdRaw)
  pure
    { ID := ratTrunc id, Album := album, AlbumID := ratTrunc albumId,
      Artist := artist, ArtistID := ratTrunc artistId,
      BitRate := ratTrunc bitRate, ContentType := contentType,
      CoverArt := coverArt, CreatedRaw := createdRaw,
      DiscNumber := ratTrunc discNumber, DurationRaw := ratTrunc duration,
      Genre := genre, IsDir := isDir, IsVideo := isVideo,
      MinutesAgo := ratTrunc minutesAgo, Parent := ratTrunc parent,
      Path := path, PlayerID := ratTrunc playerId, Size := ratTrunc size,
      Suffix := suffix, Title := title, Track := ratTrunc track,
      Year := ratTrunc year, Created := created,
      Duration := ratTrunc duration * 1000000000 }

/-- The entry loop (client.go lines 404-465). -/
def nowPlayingItems : List Json → Except String (List NowPlaying)
  | [] => .ok []
  | .obj m :: rest => do
    let n ← buildNowPlayingEntry m
    let ns ← nowPlayingItems rest
    pure (n :: ns)
  | _ :: rest => nowPlayingItems rest

/-- Cardinality normalization and build for the now-playing `entry` value
(client.go lines 390-401) — the entry list processing as the author wrote
it, parameterized by the `Entry` value of the container. -/
def getNowPlayingEntries : Json → Except String (List NowPlaying)
  | .obj m => nowPlayingItems [Json.obj m]
  | .arr xs => nowPlayingItems xs
  | _ => .error "gosubsonic: failed to parse getNowPlaying response"

/-- GetNowPlaying after the fetch (client.go lines 370-469).  When the
`nowPlaying` payload is a string the call returns `nil, nil` (lines
377-381); otherwise line 390 performs the unchecked assertion
`res.Response.NowPlaying.(apiNowPlayingContainer)` on an `interface{}`
value filled by `json.Unmarshal`, whose dynamic type is always a generic
JSON type, so the assertion panics and the call never returns. -/
def getNowPlaying (st : APIStatus) : Except String (List NowPlaying) :=
  match st.NowPlaying with
  | .str _ => .ok []
  | _ => .error goPanic

/-- GetNowPlaying composed with the fetchJSON error check, starting from the
JSON-parsed response body. -/
def getNowPlayingFromResponse (j : Json) : Except String (List NowPlaying) :=
  (fetchJSONPure j).bind fun res => getNowPlaying res.Response

/-! ## GetLicense (client.go lines 56-77)

The `&res.Response.License == nil` check of line 64 compares the address of
a struct field against nil and is always false; what remains is the date
parse of lines 70-74. -/

/-- GetLicense after the fetch (client.go lines 56-77). -/
def getLicense (st : APIStatus) : Except String License :=
  match timeParseCreated st.License.DateRaw with
  | some t => .ok { st.License with Date := t }
  | none => .error (timeParseErrMsg st.License.DateRaw)

/-! ## URL construction (client.go lines 16-19, 473-532) -/

/-- Client identifier constant (client.go line 17). -/
def CLIENT : String := "gosubsonic-git-master"

/-- Protocol version constant (client.go line 18). -/
def APIVERSION : String := "1.8.0"

/-- Client (client.go lines 22-26). -/
structure Client where
  Host : String := ""
  Username : String := ""
  Password : String := ""

/-- StreamOptions (client.go lines 474-480). -/
structure StreamOptions where
  MaxBitRate : Int := 0
  Format : String := ""
  TimeOffset : Int := 0
  Size : String := ""
  EstimateContentLength : Bool := false

/-- makeURL (client.go lines 529-532):
`fmt.Sprintf("http://%s/rest/%s.view?u=%s&p=%s&c=%s&v=%s&f=json", ...)`. -/
def makeURL (s : Client) (method : String) : String :=
  "http://" ++ s.Host ++ "/rest/" ++ method ++ ".view?u=" ++ s.Username ++
    "&p=" ++ s.Password ++ "&c=" ++ CLIENT ++ "&v=" ++ APIVERSION ++ "&f=json"

/-- The URL built by Stream (client.go lines 483-519): `strconv.FormatInt`
is `toString` on `Int`, and each optional parameter is appended only when
its field passes the corresponding check. -/
def streamURL (s : Client) (id : Int) (options : Option StreamOptions) : String :=
  match options with
  | none => makeURL s "stream" ++ "&id=" ++ toString id
  | some o =>
    let optStr := ""
    let optStr := if o.MaxBitRate > 0 then
      optStr ++ "&maxBitRate=" ++ toString o.MaxBitRate else optStr
    let optStr := if o.Format ≠ "" then
      optStr ++ "&format=" ++ o.Format else optStr
    let optStr := if o.TimeOffset > 0 then
      optStr ++ "&timeOffset=" ++ toString o.TimeOffset else optStr
    let optStr := if o.Size ≠ "" then
      optStr ++ "&size=" ++ o.Size else optStr
    let optStr := if o.EstimateContentLength then
      optStr ++ "&estimateContentLength=true" else optStr
    makeURL s "stream" ++ "&id=" ++ toString id ++ optStr

/-! ## Query-string observation (specification side)

Helpers used only to state what "the query string contains exactly these
parameters" means; they are not translated from the source. -/

/-- Split a character list on a separator. -/
def splitOnCharList (sep : Char) : List Char → List (List Char)
  | [] => [[]]
  | c :: rest =>
    match splitOnCharList sep rest with
    | [] => if c = sep then [[], []] else [[c]]
    | h :: t => if c = sep then [] :: h :: t else (c :: h) :: t

/-- Drop everything up to and including the first occurrence of a
character. -/
def afterChar (sep : Char) : List Char → List Char
  | [] => []
  | c :: rest => if c = sep then rest else afterChar sep rest

/-- The `name=value` segments of a URL's query string. -/
def queryParams (url : String) : List String :=
  (splitOnCharList '&' (afterChar '?' url.toList)).map fun p => String.mk p

/-- The parameter names of a URL's query string. -/
def queryParamNames (url : String) : List String :=
  (splitOnCharList '&' (afterChar '?' url.toList)).map fun p =>
    String.mk (p.takeWhile fun c => c ≠ '=')

/-- `Except.ok` results of length one, used to state the one-element half of
the cardinality law without a propositional hypothesis. -/
def lenOneOnOk : Except String (List α) → Bool
  | .ok l => l.length == 1
  | .error _ => true

/-- Drop every binding of a key from a JSON object's field list. -/
def removeKey (k : String) (m : List (String × Json)) : List (String × Json) :=
  m.filter fun p => p.1 ≠ k

/-! ## Fixtures

The mock payloads of src/mock.go, plus concrete inputs used to settle the
claims. -/

/-- The single child object of the getMusicDirectory fixture (mock.go). -/
def mockChild : List (String × Json) :=
  [("id", .num 405), ("title", .str "2008 - Adventure"),
   ("created", .str "2013-08-12T00:12:24"), ("album", .str "Adventure"),
   ("parent", .num 1), ("isDir", .bool true), ("artist", .str "Adventure"),
   ("coverArt", .num 405)]

/-- The getMusicDirectory fixture response (mock.go), with a single-object
`child`. -/
def jsonMockGetMusicDirectory : Json :=
  .obj [("subsonic-response", .obj
    [("status", .str "ok"),
     ("directory", .obj
       [("child", .obj mockChild), ("id", .num 3), ("name", .str "Adventure")]),
     ("xmlns", .str "http://subsonic.org/restapi"),
     ("version", .str "1.9.0")])]

/-- The same fixture with the `child` value wrapped in a one-element
array. -/
def jsonMockGetMusicDirectoryArrayChild : Json :=
  .obj [("subsonic-response", .obj
    [("status", .str "ok"),
     ("directory", .obj
       [("child", .arr [.obj mockChild]), ("id", .num 3),
        ("name", .str "Adventure")]),
     ("xmlns", .str "http://subsonic.org/restapi"),
     ("version", .str "1.9.0")])]

/-- The Directory record the repository's own test expects for the fixture
child (client_test.go, TestGetMusicDirectory). -/
def dir405 : Directory :=
  { ID := 405, Album := "Adventure", Artist := "Adventure", CoverArt := 405,
    CreatedRaw := "2013-08-12T00:12:24", Parent := 1,
    Title := "2008 - Adventure", Created := ⟨2013, 8, 12, 0, 12, 24⟩ }

/-- The getLicense fixture (mock.go), decoded. -/
def stLicenseOk : APIStatus :=
  { Status := "ok", Xmlns := "http://subsonic.org/restapi",
    Version := "1.9.0",
    License := { DateRaw := "2014-01-01T00:00:00",
                 Email := "mock@example.com",
                 Key := "abcdef0123456789abcdef0123456789", Valid := true } }

/-- The getLicense fixture with a trailing `Z` on the date. -/
def stLicenseZ : APIStatus :=
  { stLicenseOk with License :=
    { stLicenseOk.License with DateRaw := "2014-01-01T00:00:00Z" } }

/-- A media child carrying every field GetMusicDirectory reads, required and
optional. -/
def mediaChildFull : List (String × Json) :=
  [("id", .num 201), ("album", .str "Adventure"), ("title", .str "Glory"),
   ("contentType", .str "audio/mpeg"), ("coverArt", .num 405),
   ("created", .str "2013-08-12T00:12:24"), ("duration", .num 200),
   ("isDir", .bool false), ("isVideo", .bool false), ("parent", .num 1),
   ("path", .str "Adventure/Glory.mp3"), ("suffix", .str "mp3"),
   ("type", .str "music"), ("albumId", .num 11), ("artist", .str "Adventure"),
   ("artistId", .num 5), ("discNumber", .num 1), ("genre", .str "Chiptune"),
   ("track", .num 3), ("year", .num 2008),
   ("transcodedContentType", .str "audio/ogg"), ("transcodedSuffix", .str "ogg")]

/-- The media child with a trailing `Z` on the created timestamp. -/
def mediaChildZ : List (String × Json) :=
  ("created", .str "2013-08-12T00:12:24Z") :: removeKey "created" mediaChildFull

/-- The optional media fields of the spec's list (cover art id, track, disc
number, year, genre, transcoding hints) plus the remaining comma-ok fields
of the builder. -/
def optionalMediaKeys : List String :=
  ["coverArt", "track", "discNumber", "year", "genre",
   "transcodedContentType", "transcodedSuffix", "albumId", "artist",
   "artistId"]

/-- A now-playing entry carrying every field GetNowPlaying reads. -/
def npEntryFull : List (String × Json) :=
  [("id", .num 42), ("album", .str "Boston"), ("albumId", .num 7),
   ("artist", .str "Boston"), ("artistId", .num 3), ("bitRate", .num 320),
   ("contentType", .str "audio/mpeg"), ("coverArt", .num 7),
   ("created", .str "2013-08-12T00:12:24"), ("discNumber", .num 1),
   ("duration", .num 285), ("genre", .str "Rock"), ("isDir", .bool false),
   ("isVideo", .bool false), ("minutesAgo", .num 5), ("parent", .num 9),
   ("path", .str "Boston/More.mp3"), ("playerId", .num 2),
   ("size", .num 1000), ("suffix", .str "mp3"),
   ("title", .str "More Than a Feeling"), ("track", .num 1),
   ("year", .num 1976)]

/-- The now-playing entry with a trailing `Z` on the created timestamp. -/
def npEntryZ : List (String × Json) :=
  ("created", .str "2013-08-12T00:12:24Z") :: removeKey "created" npEntryFull

/-- A response document whose envelope carries an error object equal to the
Go zero value, with `status` reporting failure. -/
def jsonEnvZeroError : Json :=
  .obj [("subsonic-response", .obj
    [("status", .str "failed"),
     ("error", .obj [("code", .num 0), ("message", .str "")])])]

/-- A response document whose envelope carries a non-zero error object while
`status` reports success. -/
def jsonEnvErr50 : Json :=
  .obj [("subsonic-response", .obj
    [("status", .str "ok"),
     ("error", .obj [("code", .num 50),
                     ("message", .str "User is not authorized")])])]

/-- The container `jsonEnvErr50` unmarshals to. -/
def cErr50 : apiContainer :=
  { Response := { Status := "ok",
                  Error := { Code := 50, Message := "User is not authorized" } } }

/-- An ill-typed envelope: `status` is a number, which `json.Unmarshal`
rejects with a type error, so fetchJSON fails with the parse error and
never reaches the error-envelope check, non-zero error object
notwithstanding. -/
def jsonEnvIllTyped : Json :=
  .obj [("subsonic-response", .obj
    [("status", .num 123),
     ("error", .obj [("code", .num 50), ("message", .str "x")])])]

/-- The fixture-style response for getNowPlaying when nothing is playing:
the `nowPlaying` value is the empty string. -/
def jsonNowPlayingEmptyString : Json :=
  .obj [("subsonic-response", .obj
    [("status", .str "ok"), ("nowPlaying", .str ""),
     ("xmlns", .str "http://subsonic.org/restapi"),
     ("version", .str "1.9.0")])]

/-- All-optional-fields-unset stream options: the zero StreamOptions. -/
def zeroStreamOptions : StreamOptions := {}

/-- A concrete client used for closed evaluations. -/
def mockClient : Client :=
  { Host := "localhost", Username := "user", Password := "pass" }

/-! ## Claims -/

/-- C1: the single-object / one-element-array equivalence for the four
cardinality-normalized container fields.  For the music-folder list, the
per-index artist list and the (unreachable) now-playing entry list the two
shapes produce identical results, one-element on success; for the
getMusicDirectory child list both shapes produce identical results, but at
the repository's own fixture that result is the empty content — not a
one-element directories sequence — because the container type assertion of
client.go line 216 never succeeds on a JSON-decoded `interface{}` value;
likewise GetNowPlaying panics on line 390 before ever normalizing its entry
field. -/
theorem claim_C1_theorem :
    (∀ o, parseMusicFolders (Json.obj o) = parseMusicFolders (Json.arr [Json.obj o]))
    ∧ (∀ o, lenOneOnOk (parseMusicFolders (Json.obj o)) = true)
    ∧ (∀ o, parseIndexArtists (Json.obj o) = parseIndexArtists (Json.arr [Json.obj o]))
    ∧ (∀ o, lenOneOnOk (parseIndexArtists (Json.obj o)) = true)
    ∧ (∀ o, getNowPlayingEntries (Json.obj o) = getNowPlayingEntries (Json.arr [Json.obj o]))
    ∧ (∀ o, lenOneOnOk (getNowPlayingEntries (Json.obj o)) = true)
    ∧ (∀ o, getMusicDirectoryFromChild (Json.obj o) =
        getMusicDirectoryFromChild (Json.arr [Json.obj o]))
    ∧ getMusicDirectoryFromResponse jsonMockGetMusicDirectory = .ok {}
    ∧ getMusicDirectoryFromResponse jsonMockGetMusicDirectoryArrayChild = .ok {}
    ∧ (∀ o, getNowPlaying { NowPlaying := Json.obj [("entry", Json.obj o)] } =
        .error goPanic) := by
  refine ⟨fun o => rfl, ?_, fun o => rfl, ?_, fun o => rfl, ?_, fun o => rfl,
    rfl, rfl, fun o => rfl⟩
  · intro o
    cases h : musicFolderFromMap o <;>
      simp [parseMusicFolders, musicFolderItems, h, lenOneOnOk, Except.bind] <;> rfl
  · intro o
    cases h : indexArtistFromMap o <;>
      simp [parseIndexArtists, indexArtistItems, h, lenOneOnOk, Except.bind] <;> rfl
  · intro o
    cases h : buildNowPlayingEntry o <;>
      simp [getNowPlayingEntries, nowPlayingItems, h, lenOneOnOk, Except.bind] <;> rfl

/-- C2 counterexample: the claim's coercion policy does not match the code.
A boolean album is a coercion error, not an `ok` result carrying the text
`True`; a null title is a coercion error, not `""`; a string is passed
through verbatim with no HTML-entity unescaping (`&amp;` stays `&amp;`). -/
theorem claim_C2_counterexample :
    mdAlbumString (Json.bool true) =
      .error "gosubsonic: unknown Album data type for getMusicDirectory"
    ∧ mdTitleString Json.null =
      .error "gosubsonic: unknown Title data type for getMusicDirectory"
    ∧ mdAlbumString (Json.str "&amp;") = .ok "&amp;" :=
  ⟨rfl, rfl, rfl⟩

/-- C2 amended: the album coercion of GetMusicDirectory maps null to `""`,
passes a string through unchanged (no HTML unescaping), formats a number as
a truncated base-10 integer, and fails on every other type (booleans
included) with an error naming the field and operation; the title coercion
and the GetNowPlaying album coercion accept only strings and numbers, so a
null there also fails. -/
theorem claim_C2_theorem :
    mdAlbumString Json.null = .ok ""
    ∧ (∀ s, mdAlbumString (Json.str s) = .ok s)
    ∧ (∀ q, mdAlbumString (Json.num q) = .ok (toString (ratTrunc q)))
    ∧ (∀ b, mdAlbumString (Json.bool b) =
        .error "gosubsonic: unknown Album data type for getMusicDirectory")
    ∧ (∀ xs, mdAlbumString (Json.arr xs) =
        .error "gosubsonic: unknown Album data type for getMusicDirectory")
    ∧ (∀ m, mdAlbumString (Json.obj m) =
        .error "gosubsonic: unknown Album data type for getMusicDirectory")
    ∧ (∀ s, mdTitleString (Json.str s) = .ok s)
    ∧ (∀ q, mdTitleString (Json.num q) = .ok (toString (ratTrunc q)))
    ∧ mdTitleString Json.null =
        .error "gosubsonic: unknown Title data type for getMusicDirectory"
    ∧ (∀ b, mdTitleString (Json.bool b) =
        .error "gosubsonic: unknown Title data type for getMusicDirectory")
    ∧ (∀ s, npAlbumString (Json.str s) = .ok s)
    ∧ (∀ q, npAlbumString (Json.num q) = .ok (toString (ratTrunc q)))
    ∧ npAlbumString Json.null =
        .error "gosubsonic: unknown Album data type for getNowPlaying"
    ∧ (∀ b, npAlbumString (Json.bool b) =
        .error "gosubsonic: unknown Album data type for getNowPlaying")
    ∧ mdAlbumString (Json.num (mkRat 5 2)) = .ok "2"
    ∧ mdAlbumString (Json.num (mkRat (-5) 2)) = .ok "-2" :=
  ⟨rfl, fun _ => rfl, fun _ => rfl, fun _ => rfl, fun _ => rfl, fun _ => rfl,
   fun _ => rfl, fun _ => rfl, rfl, fun _ => rfl, fun _ => rfl, fun _ => rfl,
   rfl, fun _ => rfl, rfl, rfl⟩

/-- C3: at the repository's own getMusicDirectory fixture the call succeeds
but returns empty content — no directory with id 405 — because the
container type assertion of client.go line 216 never succeeds on a decoded
`interface{}` value; the unreachable child-processing code, run on the
fixture child, would have produced exactly the record the test expects. -/
theorem claim_C3_theorem :
    getMusicDirectoryFromResponse jsonMockGetMusicDirectory = .ok {}
    ∧ getMusicDirectoryFromChild (Json.obj mockChild) =
        .ok { Directories := [dir405] }
    ∧ dir405.ID = 405 ∧ dir405.Artist = "Adventure" :=
  ⟨rfl, rfl, rfl, rfl⟩

/-- C4 counterexample: a created timestamp with a trailing `Z` fails the
GetLicense call — the fixed layout `2006-01-02T15:04:05` treats the `Z` as
extra text. -/
theorem claim_C4_counterexample :
    isErrB (getLicense stLicenseZ) = true := rfl

/-- C4 amended: every created-timestamp parse in the code uses the single
fixed layout without a trailing `Z`: the plain `YYYY-MM-DDTHH:MM:SS` form
parses in GetLicense and in the directory and now-playing builders, and the
same string with a trailing `Z` fails each of them. -/
theorem claim_C4_theorem :
    getLicense stLicenseOk =
      .ok { DateRaw := "2014-01-01T00:00:00", Email := "mock@example.com",
            Key := "abcdef0123456789abcdef0123456789", Valid := true,
            Date := ⟨2014, 1, 1, 0, 0, 0⟩ }
    ∧ isErrB (getLicense stLicenseZ) = true
    ∧ isOkB (getMusicDirectoryFromChild (Json.obj mediaChildFull)) = true
    ∧ isErrB (getMusicDirectoryFromChild (Json.obj mediaChildZ)) = true
    ∧ isOkB (getNowPlayingEntries (Json.obj npEntryFull)) = true
    ∧ isErrB (getNowPlayingEntries (Json.obj npEntryZ)) = true :=
  ⟨rfl, rfl, rfl, rfl, rfl, rfl⟩

/-- C5 counterexample: in the GetNowPlaying entry builder the track number
is read by an unchecked type assertion, so its absence fails the call
(a run-time panic in Go), although the claim lists it as genuinely
optional. -/
theorem claim_C5_counterexample :
    isErrB (getNowPlayingEntries (Json.obj (removeKey "track" npEntryFull))) = true :=
  rfl

/-- C5 amended: in the GetMusicDirectory media builder absence (or type
mismatch) of each of the listed optional fields does not fail the call, but
the built record then carries the Go zero value — removing coverArt is
indistinguishable from sending coverArt 0, and a mistyped coverArt behaves
like an absent one; in the GetNowPlaying builder only coverArt is optional
this way, while absence of track, discNumber, year or genre fails the
call. -/
theorem claim_C5_theorem :
    (optionalMediaKeys.all fun k =>
      isOkB (getMusicDirectoryFromChild (Json.obj (removeKey k mediaChildFull)))) = true
    ∧ getMusicDirectoryFromChild (Json.obj (removeKey "coverArt" mediaChildFull)) =
        getMusicDirectoryFromChild
          (Json.obj (("coverArt", Json.num 0) :: removeKey "coverArt" mediaChildFull))
    ∧ getMusicDirectoryFromChild
        (Json.obj (("coverArt", Json.str "nope") :: removeKey "coverArt" mediaChildFull)) =
        getMusicDirectoryFromChild (Json.obj (removeKey "coverArt" mediaChildFull))
    ∧ isOkB (getNowPlayingEntries (Json.obj (removeKey "coverArt" npEntryFull))) = true
    ∧ (["track", "discNumber", "year", "genre"].all fun k =>
        isErrB (getNowPlayingEntries (Json.obj (removeKey k npEntryFull)))) = true :=
  ⟨rfl, rfl, rfl, rfl, rfl⟩

/-- C6: when the nowPlaying payload is the empty string, GetNowPlaying
returns an empty sequence and no error (client.go lines 377-381). -/
theorem claim_C6_theorem (st : APIStatus) (h : st.NowPlaying = Json.str "") :
    getNowPlaying st = .ok [] := by
  unfold getNowPlaying
  rw [h]

/-- C6 witness: the empty-string fixture, decoded end to end. -/
theorem claim_C6_witness :
    getNowPlaying (decodeApiContainer jsonNowPlayingEmptyString).Response = .ok [] :=
  claim_C6_theorem (decodeApiContainer jsonNowPlayingEmptyString).Response rfl

/-- C7 counterexample: an envelope carrying an error object whose decoded
value equals the Go zero value (code 0, empty message) unmarshals cleanly
yet does not fail the JSON call — fetchJSON compares the decoded error
against its zero value, so this envelope is treated as success even though
`status` is `failed`. -/
theorem claim_C7_counterexample :
    envelopeErrorPresent jsonEnvZeroError = true
    ∧ fetchJSONUnmarshal jsonEnvZeroError = .ok { Response := { Status := "failed" } } :=
  ⟨rfl, rfl⟩

/-- C7 amended: for every response body that unmarshals successfully, a
decoded error object different from the zero value fails the JSON call with
an error carrying the server's code and message verbatim and no container
is returned alongside it (an error object equal to the zero value is
treated as success); on the streaming endpoint, every JSON-typed response
that unmarshals fails the call with the envelope's code and message and no
reader is returned; a body that fails to unmarshal surfaces the parse error
instead of a remote error. -/
theorem claim_C7_theorem :
    (∀ (j : Json) (c : apiContainer), unmarshalApiContainer j = .ok c →
      c.Response.Error ≠ ({} : APIError) →
      fetchJSONUnmarshal j = .error (remoteErrMsg c.Response.Error))
    ∧ (∀ (ct : String) (j : Json) (c : apiContainer),
      goStringsContains ct "application/json" = true →
      unmarshalApiContainer j = .ok c →
      fetchBinaryCheck ct j = .error (remoteErrMsg c.Response.Error))
    ∧ (∀ (j : Json) (e : String), unmarshalApiContainer j = .error e →
      fetchJSONUnmarshal j = .error e) := by
  refine ⟨?_, ?_, ?_⟩
  · intro j c h hne
    unfold fetchJSONUnmarshal
    rw [h]
    show fetchJSONCheck c = _
    simp [fetchJSONCheck, hne]
  · intro ct j c hct h
    simp [fetchBinaryCheck, hct, h]
  · intro j e h
    unfold fetchJSONUnmarshal
    rw [h]
    rfl

/-- C7 witness: a non-zero error envelope fails the JSON call and the
streaming call with its code and message preserved verbatim, and an
ill-typed envelope fails with the parse error. -/
theorem claim_C7_witness :
    fetchJSONUnmarshal jsonEnvErr50 = .error "gosubsonic: 50: User is not authorized"
    ∧ fetchBinaryCheck "application/json; charset=utf-8" jsonEnvErr50 =
        .error "gosubsonic: 50: User is not authorized"
    ∧ fetchJSONUnmarshal jsonEnvIllTyped = .error unmarshalErrMsg :=
  ⟨(claim_C7_theorem.1 jsonEnvErr50 cErr50 rfl (by decide)).trans rfl,
   (claim_C7_theorem.2.1 "application/json; charset=utf-8" jsonEnvErr50 cErr50
     rfl rfl).trans rfl,
   claim_C7_theorem.2.2 jsonEnvIllTyped unmarshalErrMsg rfl⟩

/-- C8: the URL Stream builds for the zero StreamOptions is exactly the
mandatory URL — no optional parameter is ever appended — and for a concrete
client its query string consists of exactly the mandatory parameters
u, p, c, v, f=json and id. -/
theorem claim_C8_theorem :
    (∀ s id, streamURL s id (some zeroStreamOptions) =
      makeURL s "stream" ++ "&id=" ++ toString id)
    ∧ queryParams (streamURL mockClient 42 (some zeroStreamOptions)) =
        ["u=user", "p=pass", "c=gosubsonic-git-master", "v=1.8.0", "f=json", "id=42"]
    ∧ queryParamNames (streamURL mockClient 42 (some zeroStreamOptions)) =
        ["u", "p", "c", "v", "f", "id"] := by
  refine ⟨?_, rfl, rfl⟩
  intro s id
  simp [streamURL, zeroStreamOptions, String.append_empty]

/-- C9: success of a JSON call is decided solely by comparing the decoded
error object against its zero value: a zero error object is success even
when `status` is `failed`, a non-zero one is failure even when `status` is
`ok`, and changing the status field alone never changes the outcome. -/
theorem claim_C9_theorem :
    (∀ c : apiContainer, c.Response.Error = ({} : APIError) →
      fetchJSONCheck c = .ok c)
    ∧ (∀ c : apiContainer, c.Response.Error ≠ ({} : APIError) →
      fetchJSONCheck c = .error (remoteErrMsg c.Response.Error))
    ∧ (∀ (c : apiContainer) (s : String),
      isOkB (fetchJSONCheck { c with Response := { c.Response with Status := s } }) =
        isOkB (fetchJSONCheck c)) := by
  refine ⟨?_, ?_, ?_⟩
  · intro c h
    simp [fetchJSONCheck, h]
  · intro c h
    simp [fetchJSONCheck, h]
  · intro c s
    by_cases h : c.Response.Error = ({} : APIError) <;>
      simp [fetchJSONCheck, h, isOkB]

/-- C9 witness: a `failed` status with a zero error object succeeds; an `ok`
status with a non-zero error object fails. -/
theorem claim_C9_witness :
    fetchJSONCheck { Response := { Status := "failed" } } =
      .ok { Response := { Status := "failed" } }
    ∧ fetchJSONCheck { Response := { Status := "ok", Error := ⟨50, "denied"⟩ } } =
      .error (remoteErrMsg ⟨50, "denied"⟩) :=
  ⟨claim_C9_theorem.1 { Response := { Status := "failed" } } rfl,
   claim_C9_theorem.2.1 { Response := { Status := "ok", Error := ⟨50, "denied"⟩ } }
     (by decide)⟩

/-- C10: Stream with a nil options pointer and Stream with a pointer to the
zero StreamOptions build the identical request URL for every client and
media id. -/
theorem claim_C10_theorem (s : Client) (id : Int) :
    streamURL s id none = streamURL s id (some zeroStreamOptions) := by
  simp [streamURL, zeroStreamOptions, String.append_empty]

end Gosubsonic
